import Mathlib

/-!
Verification of the `CacheMixin` response-cache logic of django-braces
(`src/braces/views/_other.py`), shallowly embedded in Lean 4.

The embedding covers:
* `CacheMixin.get_cache_timeout` (the timeout-spec parser, called
  `resolveTimeout` in the specification), and
* `CacheMixin.render_to_response` (called `handleResponse` in the
  specification), together with the `update_cache` helper and the
  post-render callback it registers.

Cache writes are modelled as an explicit append-only log of
`CacheWrite` records; the post-render machinery of the external
rendering framework (the collaborator contract of spec section 6:
callbacks fire after rendering finalizes the response object in
place, and a callback's non-`none` return value would replace the
outgoing response) is modelled by `render_response`.
-/

namespace Braces

/-- A timeout specification: the `cache_timeout` attribute is either a
plain integer (seconds) or a string such as `"5m"`. -/
inductive TimeoutSpec where
  | int (n : Int)
  | str (s : String)
deriving DecidableEq, Repr

/-- Errors observable from `get_cache_timeout`.  `attributeError` models
the Python `AttributeError` raised by `match.group(...)` when
`re.match` returned `None`; `malformedTimeoutError` is the explicit
error the specification requires for malformed strings (the source
never produces it). -/
inductive PyError where
  | attributeError
  | malformedTimeoutError
deriving DecidableEq, Repr

/-- Numeric value of a digit string, as Python's `int(count)`. -/
def digitsToNat (ds : List Char) : Nat :=
  ds.foldl (fun a c => a * 10 + (c.toNat - '0'.toNat)) 0

/-- Semantics of `re.match(r"(?P<count>\d+)(?P<time>[dhm])", s)`:
anchored at the start of the string only.  The greedy `\d+` consumes
the maximal digit prefix; since every shorter digit prefix is followed
by a digit (which is not in `[dhm]`), backtracking cannot succeed
where the maximal prefix fails, so the match succeeds exactly when the
string has a nonempty digit prefix whose following character is one of
`d`, `h`, `m`.  Returns the captured groups `(count, time)`. -/
def matchCountTime (s : List Char) : Option (List Char × Char) :=
  let count := s.takeWhile Char.isDigit
  match s.dropWhile Char.isDigit with
  | [] => none
  | c :: _ =>
    if count = [] then none
    else if c = 'd' ∨ c = 'h' ∨ c = 'm' then some (count, c) else none

/-- The `if time == "m" ... elif ... elif ...` chain of
`get_cache_timeout`.  The final branch is unreachable from
`get_cache_timeout` because the pattern only captures `d`, `h` or `m`
(in Python it would be an unbound-local failure). -/
def unitSeconds (time : Char) : Int :=
  if time = 'm' then 60
  else if time = 'h' then 3600
  else if time = 'd' then 86400
  else 0

/-- `CacheMixin.get_cache_timeout`: an integer `cache_timeout` is
returned unchanged; a string is parsed with
`re.match(r"(?P<count>\d+)(?P<time>[dhm])", ...)` and the result is
`seconds * int(count)`.  When the pattern does not match, `re.match`
returns `None` and `match.group("count")` raises `AttributeError`. -/
def get_cache_timeout (cache_timeout : TimeoutSpec) : Except PyError Int :=
  match cache_timeout with
  | .int n => .ok n
  | .str s =>
    match matchCountTime s.data with
    | none => .error .attributeError
    | some (count, time) => .ok (unitSeconds time * Int.ofNat (digitsToNat count))

/-- The state of a response object.  `has_render` models
`hasattr(response, 'render') and callable(response.render)` (a
deferred-render/template response); `rendered` is the object's
render-completion state, flipped in place by the rendering step. -/
structure Response where
  streaming : Bool
  status_code : Int
  has_render : Bool
  rendered : Bool
deriving DecidableEq, Repr

/-- One entry written to the cache store: `cache.set(key, value, timeout)`. -/
structure CacheWrite where
  key : String
  value : Response
  timeout : Int
deriving DecidableEq, Repr

/-- The data closed over by the callback that `render_to_response`
registers with `add_post_render_callback`: the precomputed cache key
and resolved timeout.  (The closure also captures the response object
by reference; that reference is resolved at fire time by
`render_response`.) -/
structure PostCB where
  cache_key : String
  timeout : Int
deriving DecidableEq, Repr

/-- The inner `update_cache(key, value, timeout)` of
`render_to_response`: performs `cache.set(key, value, timeout)` on the
"default" store (modelled as appending to the write log) and returns
`None`. -/
def update_cache (key : String) (value : Response) (timeout : Int)
    (cache : List CacheWrite) : List CacheWrite × Option Response :=
  (cache ++ [⟨key, value, timeout⟩], none)

/-- The callback `lambda r: update_cache(key=cache_key, value=response,
timeout=timeout)` registered via `add_post_render_callback`.
`responseObj` is the state, at fire time, of the response object the
closure captured by reference; `r` is the argument the post-render
machinery passes, which the lambda ignores. -/
def postRenderCallback (cache_key : String) (timeout : Int)
    (responseObj : Response) (r : Response) (cache : List CacheWrite) :
    List CacheWrite × Option Response :=
  update_cache cache_key responseObj timeout cache

/-- `CacheMixin.render_to_response`, applied to the response produced
by the superclass rendering step.  Returns the response together with
the cache writes performed before returning and the post-render
callbacks registered (as their closed-over data).  Mirrors the source:
streaming or non-200 responses are returned immediately; otherwise the
timeout is resolved (its failure propagates), the cache key is the raw
`request.META["PATH_INFO"]`, and the write is either deferred via
`add_post_render_callback` or performed at once via `update_cache`. -/
def render_to_response (cache_timeout : TimeoutSpec) (path_info : String)
    (response : Response) :
    Except PyError (Response × List CacheWrite × List PostCB) :=
  if response.streaming = true ∨ response.status_code ≠ 200 then
    .ok (response, [], [])
  else
    match get_cache_timeout cache_timeout with
    | .error e => .error e
    | .ok timeout =>
      if response.has_render = true then
        .ok (response, [], [⟨path_info, timeout⟩])
      else
        .ok (response, (update_cache path_info response timeout []).1, [])

/-- One step of the post-render callback loop of the rendering
framework (spec section 6 collaborator contract): the callback is
invoked with the current outgoing response `acc.1` and, were it to
return a value other than `none`, that value would replace the
outgoing response.  `finalized` is the in-place-rendered state of the
response object the registered closure captured. -/
def renderStep (finalized : Response) (acc : Response × List CacheWrite)
    (cb : PostCB) : Response × List CacheWrite :=
  match postRenderCallback cb.cache_key cb.timeout finalized acc.1 acc.2 with
  | (cache, none) => (acc.1, cache)
  | (cache, some r) => (r, cache)

/-- Deferred rendering of a template response carrying registered
post-render callbacks: rendering first finalizes the response object
in place, then fires each callback in order.  Returns the outgoing
response and the cache log. -/
def render_response (response : Response) (callbacks : List PostCB)
    (cache : List CacheWrite) : Response × List CacheWrite :=
  callbacks.foldl (renderStep { response with rendered := true })
    ({ response with rendered := true }, cache)

/-! ### Parsing lemmas -/

theorem takeWhile_digits_append (ds : List Char)
    (hd : ∀ c ∈ ds, c.isDigit = true) (u : Char) (hu : u.isDigit = false)
    (rest : List Char) :
    (ds ++ u :: rest).takeWhile Char.isDigit = ds := by
  induction ds with
  | nil => simp [List.takeWhile_cons, hu]
  | cons c cs ih =>
    have hc : c.isDigit = true := hd c (by simp)
    simp only [List.cons_append, List.takeWhile_cons, hc, if_true]
    have := ih (fun x hx => hd x (by simp [hx]))
    simp [this]

theorem dropWhile_digits_append (ds : List Char)
    (hd : ∀ c ∈ ds, c.isDigit = true) (u : Char) (hu : u.isDigit = false)
    (rest : List Char) :
    (ds ++ u :: rest).dropWhile Char.isDigit = u :: rest := by
  induction ds with
  | nil => simp [List.dropWhile_cons, hu]
  | cons c cs ih =>
    have hc : c.isDigit = true := hd c (by simp)
    simp only [List.cons_append, List.dropWhile_cons, hc, if_true]
    exact ih (fun x hx => hd x (by simp [hx]))

theorem matchCountTime_append (ds : List Char) (hne : ds ≠ [])
    (hd : ∀ c ∈ ds, c.isDigit = true) (u : Char)
    (hu : u = 'm' ∨ u = 'h' ∨ u = 'd') (rest : List Char) :
    matchCountTime (ds ++ u :: rest) = some (ds, u) := by
  have hud : u.isDigit = false := by
    rcases hu with h | h | h <;> subst h <;> decide
  have ht := takeWhile_digits_append ds hd u hud rest
  have hdr := dropWhile_digits_append ds hd u hud rest
  have hcond : u = 'd' ∨ u = 'h' ∨ u = 'm' := by tauto
  simp [matchCountTime, ht, hdr, hne, hcond]

/-- General evaluation of `get_cache_timeout` on a string whose prefix
is a nonempty digit run followed by a valid unit character; everything
after the unit character is ignored by the anchored `re.match`. -/
theorem get_cache_timeout_str_eval (ds : List Char) (hne : ds ≠ [])
    (hd : ∀ c ∈ ds, c.isDigit = true) (u : Char)
    (hu : u = 'm' ∨ u = 'h' ∨ u = 'd') (rest : List Char) :
    get_cache_timeout (.str ⟨ds ++ u :: rest⟩) =
      .ok (unitSeconds u * Int.ofNat (digitsToNat ds)) := by
  have hm := matchCountTime_append ds hne hd u hu rest
  simp [get_cache_timeout, hm]

/-! ### Claim theorems -/

/-- C1: the claim says malformed timeout strings (such as `"5x"`,
`"abc"`, `""`) make `get_cache_timeout` fail with a
`MalformedTimeoutError`.  The source instead lets `match.group` raise
an `AttributeError` on the failed `re.match`; this theorem evaluates
the code at the failing inputs and records that the error produced is
`attributeError`, not `malformedTimeoutError`. -/
theorem claim_c1_malformed_attribute_error :
    get_cache_timeout (.str "5x") = .error .attributeError ∧
    get_cache_timeout (.str "abc") = .error .attributeError ∧
    get_cache_timeout (.str "") = .error .attributeError ∧
    (Except.error .attributeError : Except PyError Int) ≠
      .error .malformedTimeoutError := by
  refine ⟨rfl, rfl, rfl, ?_⟩
  intro h
  cases h

/-- C2: for every valid timeout string made of a nonempty digit
sequence followed by exactly one unit character `m`, `h` or `d`,
`get_cache_timeout` returns the count multiplied by 60, 3600 or 86400
respectively. -/
theorem claim_c2_valid_string_timeout (ds : List Char) (hne : ds ≠ [])
    (hd : ∀ c ∈ ds, c.isDigit = true) (u : Char)
    (hu : u = 'm' ∨ u = 'h' ∨ u = 'd') :
    get_cache_timeout (.str ⟨ds ++ [u]⟩) =
      .ok ((if u = 'm' then 60 else if u = 'h' then 3600 else 86400) *
        Int.ofNat (digitsToNat ds)) := by
  have h := get_cache_timeout_str_eval ds hne hd u hu []
  rcases hu with h1 | h1 | h1 <;> subst h1 <;> simpa [unitSeconds] using h

/-- Witness for C2: `"5m"` yields 300, `"2h"` yields 7200, `"1d"`
yields 86400. -/
theorem claim_c2_witness :
    get_cache_timeout (.str "5m") = .ok 300 ∧
    get_cache_timeout (.str "2h") = .ok 7200 ∧
    get_cache_timeout (.str "1d") = .ok 86400 := by
  refine ⟨?_, ?_, ?_⟩
  · exact (claim_c2_valid_string_timeout ['5'] (by decide) (by decide) 'm'
      (Or.inl rfl)).trans rfl
  · exact (claim_c2_valid_string_timeout ['2'] (by decide) (by decide) 'h'
      (Or.inr (Or.inl rfl))).trans rfl
  · exact (claim_c2_valid_string_timeout ['1'] (by decide) (by decide) 'd'
      (Or.inr (Or.inr rfl))).trans rfl

/-- C3: for a fully rendered response (no deferred-render hook) with
status 200 and not streaming, `render_to_response` performs exactly
one cache write before returning — key is the request path verbatim,
value is the response object itself, timeout is the resolved timeout —
and registers no deferred callback. -/
theorem claim_c3_immediate_single_write (spec : TimeoutSpec) (t : Int)
    (hspec : get_cache_timeout spec = .ok t) (path : String) (resp : Response)
    (hs : resp.streaming = false) (hc : resp.status_code = 200)
    (hr : resp.has_render = false) :
    render_to_response spec path resp = .ok (resp, [⟨path, resp, t⟩], []) := by
  simp [render_to_response, hs, hc, hspec, hr, update_cache]

/-- Witness for C3 at path `"/foo/bar"` with an integer timeout. -/
theorem claim_c3_witness :
    render_to_response (.int 600) "/foo/bar" ⟨false, 200, false, true⟩ =
      .ok (⟨false, 200, false, true⟩,
        [⟨"/foo/bar", ⟨false, 200, false, true⟩, 600⟩], []) :=
  claim_c3_immediate_single_write (.int 600) 600 rfl "/foo/bar"
    ⟨false, 200, false, true⟩ rfl rfl rfl

/-- C4: for a deferred-render response with status 200 and not
streaming, `render_to_response` performs no cache write before
returning and registers one post-render callback; firing the callback
after rendering produces the single cache write, whose value is the
finalized (post-render) response object, which differs from the
pre-render placeholder. -/
theorem claim_c4_deferred_write (spec : TimeoutSpec) (t : Int)
    (hspec : get_cache_timeout spec = .ok t) (path : String) (resp : Response)
    (hs : resp.streaming = false) (hc : resp.status_code = 200)
    (hr : resp.has_render = true) (hnr : resp.rendered = false) :
    render_to_response spec path resp = .ok (resp, [], [⟨path, t⟩]) ∧
    render_response resp [⟨path, t⟩] [] =
      ({ resp with rendered := true },
        [⟨path, { resp with rendered := true }, t⟩]) ∧
    ({ resp with rendered := true } : Response) ≠ resp := by
  refine ⟨?_, rfl, ?_⟩
  · simp [render_to_response, hs, hc, hspec, hr]
  · intro h
    have h2 := congrArg Response.rendered h
    simp [hnr] at h2

/-- Witness for C4 with a concrete template response and `"5m"`. -/
theorem claim_c4_witness :
    render_to_response (.str "5m") "/foo/bar" ⟨false, 200, true, false⟩ =
      .ok (⟨false, 200, true, false⟩, [], [⟨"/foo/bar", 300⟩]) ∧
    render_response ⟨false, 200, true, false⟩ [⟨"/foo/bar", 300⟩] [] =
      (⟨false, 200, true, true⟩,
        [⟨"/foo/bar", ⟨false, 200, true, true⟩, 300⟩]) ∧
    (⟨false, 200, true, true⟩ : Response) ≠ ⟨false, 200, true, false⟩ :=
  claim_c4_deferred_write (.str "5m") 300 rfl "/foo/bar"
    ⟨false, 200, true, false⟩ rfl rfl rfl rfl

/-- C5: a response whose status code is not 200 is returned
immediately with no cache write performed and no callback
registered. -/
theorem claim_c5_non200_no_write (spec : TimeoutSpec) (path : String)
    (resp : Response) (hc : resp.status_code ≠ 200) :
    render_to_response spec path resp = .ok (resp, [], []) := by
  unfold render_to_response
  rw [if_pos (Or.inr hc)]

/-- Witness for C5 at status 404. -/
theorem claim_c5_witness :
    render_to_response (.int 600) "/foo/bar" ⟨false, 404, false, true⟩ =
      .ok (⟨false, 404, false, true⟩, [], []) :=
  claim_c5_non200_no_write (.int 600) "/foo/bar"
    ⟨false, 404, false, true⟩ (by decide)

/-- C6: a streaming response is returned immediately with no cache
write performed and no callback registered, regardless of its status
code. -/
theorem claim_c6_streaming_no_write (spec : TimeoutSpec) (path : String)
    (resp : Response) (hs : resp.streaming = true) :
    render_to_response spec path resp = .ok (resp, [], []) := by
  unfold render_to_response
  rw [if_pos (Or.inl hs)]

/-- Witness for C6: a streaming response with status 200 is still not
cached. -/
theorem claim_c6_witness :
    render_to_response (.int 600) "/foo/bar" ⟨true, 200, false, true⟩ =
      .ok (⟨true, 200, false, true⟩, [], []) :=
  claim_c6_streaming_no_write (.int 600) "/foo/bar"
    ⟨true, 200, false, true⟩ rfl

/-- C7: an integer timeout spec is returned unchanged, with no
parsing. -/
theorem claim_c7_int_passthrough (n : Int) :
    get_cache_timeout (.int n) = .ok n := rfl

/-- C8: on every returning path of `render_to_response` — skip,
immediate write, or deferred write — the response returned is exactly
the response received from the rendering step. -/
theorem claim_c8_passthrough (spec : TimeoutSpec) (path : String)
    (resp r : Response) (writes : List CacheWrite) (cbs : List PostCB)
    (h : render_to_response spec path resp = .ok (r, writes, cbs)) :
    r = resp := by
  unfold render_to_response at h
  split at h
  · simp only [Except.ok.injEq, Prod.mk.injEq] at h
    exact h.1.symm
  · split at h
    · simp at h
    · split at h
      · simp only [Except.ok.injEq, Prod.mk.injEq] at h
        exact h.1.symm
      · simp only [Except.ok.injEq, Prod.mk.injEq] at h
        exact h.1.symm

/-- Witness for C8: applying the pass-through theorem at a concrete
immediate-write run. -/
theorem claim_c8_witness :
    (⟨false, 200, false, true⟩ : Response) = ⟨false, 200, false, true⟩ :=
  claim_c8_passthrough (.int 600) "/foo/bar" ⟨false, 200, false, true⟩
    ⟨false, 200, false, true⟩
    [⟨"/foo/bar", ⟨false, 200, false, true⟩, 600⟩] [] (by simp
      [render_to_response, update_cache, get_cache_timeout])

/-- C9: the pattern match is anchored only at the start, so any
characters after the digit run and unit character are silently
ignored and the value is computed from the matching prefix alone. -/
theorem claim_c9_trailing_ignored (ds : List Char) (hne : ds ≠ [])
    (hd : ∀ c ∈ ds, c.isDigit = true) (u : Char)
    (hu : u = 'm' ∨ u = 'h' ∨ u = 'd') (rest : List Char) :
    get_cache_timeout (.str ⟨ds ++ u :: rest⟩) =
      .ok (unitSeconds u * Int.ofNat (digitsToNat ds)) :=
  get_cache_timeout_str_eval ds hne hd u hu rest

/-- Witness for C9: `"5m30s"` and `"5mx"` both yield 300. -/
theorem claim_c9_witness :
    get_cache_timeout (.str "5m30s") = .ok 300 ∧
    get_cache_timeout (.str "5mx") = .ok 300 := by
  refine ⟨?_, ?_⟩
  · exact (claim_c9_trailing_ignored ['5'] (by decide) (by decide) 'm'
      (Or.inl rfl) ['3', '0', 's']).trans rfl
  · exact (claim_c9_trailing_ignored ['5'] (by decide) (by decide) 'm'
      (Or.inl rfl) ['x']).trans rfl

theorem renderStep_foldl_fst (fin : Response) (cbs : List PostCB) :
    ∀ (r : Response) (c : List CacheWrite),
      (cbs.foldl (renderStep fin) (r, c)).1 = r := by
  induction cbs with
  | nil => intro r c; rfl
  | cons cb tl ih =>
    intro r c
    have hstep : renderStep fin (r, c) cb =
        (r, c ++ [⟨cb.cache_key, fin, cb.timeout⟩]) := rfl
    rw [List.foldl_cons, hstep]
    exact ih r (c ++ [⟨cb.cache_key, fin, cb.timeout⟩])

/-- C10: the registered deferred-write callback returns `none` for
every input, writes the closed-over response object (not its argument)
to the cache, and consequently the post-render machinery never
replaces the outgoing response with a callback return value. -/
theorem claim_c10_callback_returns_none (cache_key : String) (timeout : Int)
    (responseObj arg : Response) (cache : List CacheWrite) :
    (postRenderCallback cache_key timeout responseObj arg cache).2 = none ∧
    (postRenderCallback cache_key timeout responseObj arg cache).1 =
      cache ++ [⟨cache_key, responseObj, timeout⟩] ∧
    ∀ (resp : Response) (cbs : List PostCB) (c : List CacheWrite),
      (render_response resp cbs c).1 = { resp with rendered := true } := by
  refine ⟨rfl, rfl, ?_⟩
  intro resp cbs c
  exact renderStep_foldl_fst { resp with rendered := true } cbs
    { resp with rendered := true } c

end Braces
